import Mathlib

/-!
# Verification of the tenderduty alerting core (`alert.go`)

This file is a shallow embedding of the alert deduplication engine, the
dashboard alarm registry, the per-sink notification wrappers and the
chain-monitor hysteresis loop of `alert.go`, together with theorems about
their behaviour.

Modelling conventions:
* a Go `map[string]bool` is modelled as the `List String` of the keys that
  are mapped to `true` (insertion never duplicates a key, deletion removes
  it);
* times are abstracted to the booleans the code actually branches on
  (`downSince.IsZero()`, `lastBlockTime` stalled, down longer than the
  configured minimum);
* the float comparison `100*float64(missed)/float64(window) > float64(thr)`
  is modelled over naturals as `thr * window < 100 * missed`, which agrees
  with the float semantics for the non-negative integral inputs involved
  (including `window = 0`, where the float division yields NaN or +Inf and
  the comparison is false resp. true exactly as in the natural model);
* external I/O (HTTP posts, the PagerDuty and Telegram clients) is
  abstracted as an oracle `Option String` delivery outcome (`none` means
  success).
-/

namespace Tenderduty

/-- Notification destinations, `notifyDest` in alert.go (`pd`, `tg`, `di`). -/
inductive NotifyDest
  | pd
  | tg
  | di
deriving DecidableEq

/-- The fields of the Go struct `alertMsg` that the dedup and wrapper logic
branches on.  Routing strings that are merely copied into the outbound
payload are not needed by any claim and are omitted. -/
structure AlertMsg where
  pd : Bool
  disc : Bool
  tg : Bool
  resolved : Bool
  chain : String
  message : String
  key : String
deriving DecidableEq

/-- A Go `map[string]bool` as the list of keys currently mapped to `true`:
`m[k] = true` assignment. -/
def setKey (m : List String) (k : String) : List String :=
  if m.contains k then m else k :: m

/-- Go `delete(m, k)` (also models `m[k] = false` for an active-set map). -/
def delKey (m : List String) (k : String) : List String :=
  m.filter (fun x => x != k)

/-- The three package-level dedup maps `sentPdAlarms`, `sentTgAlarms`,
`sentDAlarms` of alert.go. -/
structure DedupState where
  sentPdAlarms : List String
  sentTgAlarms : List String
  sentDAlarms : List String
deriving DecidableEq

/-- The map `shouldNotify` selects for a destination (`whichMap`). -/
def whichMap (st : DedupState) : NotifyDest → List String
  | .pd => st.sentPdAlarms
  | .tg => st.sentTgAlarms
  | .di => st.sentDAlarms

/-- Writing back the selected map (Go mutates `whichMap` in place, which
aliases the chosen package-level map). -/
def putMap (st : DedupState) : NotifyDest → List String → DedupState
  | .pd, m => { st with sentPdAlarms := m }
  | .tg, m => { st with sentTgAlarms := m }
  | .di, m => { st with sentDAlarms := m }

/-- The core of `shouldNotify` acting on one destination's map:
1. key active and not a resolution → suppress (`false`);
2. key active and a resolution → delete the key, `true`;
3. otherwise → mark the key active, `true`. -/
def shouldNotifyMap (active : List String) (message : String) (resolved : Bool) :
    Bool × List String :=
  if active.contains message && !resolved then
    (false, active)
  else if active.contains message && resolved then
    (true, delKey active message)
  else
    (true, setKey active message)

/-- `shouldNotify(msg, dest)` of alert.go: returns the decision and the
updated dedup state. -/
def shouldNotify (msg : AlertMsg) (dest : NotifyDest) (st : DedupState) :
    Bool × DedupState :=
  let r := shouldNotifyMap (whichMap st dest) msg.message msg.resolved
  (r.1, putMap st dest r.2)

/-- Result of one per-sink wrapper call: the returned error, whether a
delivery to the external sink was attempted, and the dedup state after the
call. -/
structure NotifyResult where
  err : Option String
  attempted : Bool
  st : DedupState
deriving DecidableEq

/-- `notifyDiscord` of alert.go.  `deliver` abstracts the HTTP POST to the
webhook (`none` = success, `some e` = failure reported as error `e`).
Returns nil without touching dedup state when `msg.disc` is false; calls
`shouldNotify` otherwise and posts only when it returned true. -/
def notifyDiscord (deliver : Option String) (msg : AlertMsg) (st : DedupState) :
    NotifyResult :=
  if !msg.disc then ⟨none, false, st⟩
  else
    let r := shouldNotify msg NotifyDest.di st
    if !r.1 then ⟨none, false, r.2⟩
    else ⟨deliver, true, r.2⟩

/-- `notifyTg` of alert.go, delivery via the Telegram bot API abstracted. -/
def notifyTg (deliver : Option String) (msg : AlertMsg) (st : DedupState) :
    NotifyResult :=
  if !msg.tg then ⟨none, false, st⟩
  else
    let r := shouldNotify msg NotifyDest.tg st
    if !r.1 then ⟨none, false, r.2⟩
    else ⟨deliver, true, r.2⟩

/-- The placeholder routing key from the PagerDuty documentation example;
alert.go refuses to page with it ("don't spam their api"). -/
def exampleKey : String := "aaaaaaaaaaaabbbbbbbbbbbbbcccccccccccc"

/-- `notifyPagerduty` of alert.go.  After a positive `shouldNotify` it still
skips delivery (returning nil) when the routing key is the documentation
example key. -/
def notifyPagerduty (deliver : Option String) (msg : AlertMsg) (st : DedupState) :
    NotifyResult :=
  if !msg.pd then ⟨none, false, st⟩
  else
    let r := shouldNotify msg NotifyDest.pd st
    if !r.1 then ⟨none, false, r.2⟩
    else if msg.key == exampleKey then ⟨none, false, r.2⟩
    else ⟨deliver, true, r.2⟩

/-- One call of `Config.alert` as far as the dashboard registry
`currentAlarms` is concerned: the chain name, message text and resolved
flag. -/
structure AlertEvent where
  chain : String
  message : String
  resolved : Bool
deriving DecidableEq

/-- The dashboard registry `currentAlarms : map[string]map[string]bool`,
modelled as the list of (chain, message) pairs currently mapped to `true`. -/
abbrev Registry := List (String × String)

/-- The `currentAlarms` update at the end of `Config.alert`:
on a resolution of an active entry, delete it; on a resolution of an absent
entry, do nothing; on a trigger, mark (chain, message) active. -/
def alertRegistry (reg : Registry) (e : AlertEvent) : Registry :=
  if e.resolved && reg.contains (e.chain, e.message) then
    reg.filter (fun p => p != (e.chain, e.message))
  else if e.resolved then
    reg
  else if reg.contains (e.chain, e.message) then
    reg
  else
    (e.chain, e.message) :: reg

/-- The registry reached from the empty one by a finite sequence of `alert`
calls. -/
def runAlerts (l : List AlertEvent) : Registry :=
  l.foldl alertRegistry []

/-- The resolved flag of the most recent `alert` call for (chain, message)
in the event list, if any. -/
def lastResolved : List AlertEvent → String → String → Option Bool
  | [], _, _ => none
  | e :: rest, c, m =>
    match lastResolved rest c m with
    | some r => some r
    | none => if e.chain == c && e.message == m then some e.resolved else none

/-- `getAlarms` of alert.go: empty when the global hide-logs flag is set
(or when the chain has no entry — indistinguishable here from having no
active alarms); otherwise the loop `result += "🚨 " + k + "\n"` over the
chain's active messages. -/
def getAlarms (hideLogs : Bool) (reg : Registry) (chain : String) : String :=
  if hideLogs then ""
  else
    ((reg.filter (fun p => p.1 == chain)).map (fun p => p.2)).foldl
      (fun result k => result ++ ("🚨 " ++ k ++ "\n")) ""

/-- The five alarm conditions of `ChainConfig.watch`'s tick loop, tagging
which branch produced an `alert` call. -/
inductive Cond
  | noRpc
  | stalled
  | consecutive
  | percent
  | nodeDown (url : String)
deriving DecidableEq

/-- One `td.alert` call made by the watch loop: the condition it came from
and the `resolved` argument it passed. -/
structure AlertCall where
  cond : Cond
  resolved : Bool
deriving DecidableEq

/-- The configuration fields of `ChainConfig.Alerts` that the tick loop
branches on.  `window` is `Alerts.Window`, the percentage threshold. -/
structure AlertsConfig where
  alertIfNoServers : Bool
  stalledAlerts : Bool
  consecutiveAlerts : Bool
  consecutiveMissed : Nat
  percentageAlerts : Bool
  window : Nat
deriving DecidableEq

/-- Per-node data read on one tick: the node's URL and flags, with the two
time comparisons (`downSince.IsZero()` and down longer than
`td.NodeDownMin` minutes) abstracted to booleans. -/
structure NodeObs where
  url : String
  alertIfDown : Bool
  down : Bool
  downSinceIsZero : Bool
  downLongEnough : Bool
deriving DecidableEq

/-- The shared statistics sampled on one tick of the watch loop.
`stalledNow` stands for `lastBlockTime.Before(now - Stalled minutes)`;
`missed` and `window` are `valInfo.Missed` and `valInfo.Window`. -/
structure TickObs where
  noNodes : Bool
  lastBlockTimeIsZero : Bool
  stalledNow : Bool
  statConsecutiveMiss : Nat
  missed : Nat
  window : Nat
  nodes : List NodeObs
deriving DecidableEq

/-- The goroutine-private hysteresis memory of one watch loop:
`noNodes`, `lastBlockAlarm`, `missedAlarm`, `pctAlarm`, the per-node-URL
alarm map (as the set of URLs currently alarmed) and `cc.activeAlerts`. -/
structure WatchState where
  noNodes : Bool
  lastBlockAlarm : Bool
  missedAlarm : Bool
  pctAlarm : Bool
  nodeAlarms : List String
  activeAlerts : Int
deriving DecidableEq

/-- `100*float64(missed)/float64(window) > float64(thr)` over naturals. -/
def pctAbove (missed window thr : Nat) : Bool :=
  decide (thr * window < 100 * missed)

/-- `100*float64(missed)/float64(window) < float64(thr)` over naturals. -/
def pctBelow (missed window thr : Nat) : Bool :=
  decide (100 * missed < thr * window)

/-- The node-down alarm check for one node (the body of the `for _, node`
loop).  NOTE: the clear branch of the source passes `false` for the
`resolved` argument of `td.alert`, which this embedding reproduces. -/
def nodeTick (st : WatchState) (n : NodeObs) : WatchState × List AlertCall :=
  if n.alertIfDown && n.down && !(st.nodeAlarms.contains n.url) &&
      !n.downSinceIsZero && n.downLongEnough then
    ({ st with activeAlerts := st.activeAlerts + 1,
               nodeAlarms := setKey st.nodeAlarms n.url },
     [⟨Cond.nodeDown n.url, false⟩])
  else if st.nodeAlarms.contains n.url && n.downSinceIsZero then
    ({ st with activeAlerts := st.activeAlerts - 1,
               nodeAlarms := delKey st.nodeAlarms n.url },
     [⟨Cond.nodeDown n.url, false⟩])
  else (st, [])

/-- The node-down loop over all configured nodes, in order. -/
def nodesTick (st : WatchState) : List NodeObs → WatchState × List AlertCall
  | [] => (st, [])
  | n :: rest =>
    let r1 := nodeTick st n
    let r2 := nodesTick r1.1 rest
    (r2.1, r1.2 ++ r2.2)

/-- The "alert if we can't monitor" block at the top of the tick loop. -/
def noNodesTick (a : AlertsConfig) (st : WatchState) (o : TickObs) :
    WatchState × List AlertCall :=
  if a.alertIfNoServers && !st.noNodes && o.noNodes then
    ({ st with noNodes := true }, [⟨Cond.noRpc, false⟩])
  else if a.alertIfNoServers && st.noNodes && !o.noNodes then
    ({ st with noNodes := false }, [⟨Cond.noRpc, true⟩])
  else (st, [])

/-- The stalled-chain block of the tick loop. -/
def stalledTick (a : AlertsConfig) (st : WatchState) (o : TickObs) :
    WatchState × List AlertCall :=
  if a.stalledAlerts && !st.lastBlockAlarm && !o.lastBlockTimeIsZero &&
      o.stalledNow then
    ({ st with lastBlockAlarm := true }, [⟨Cond.stalled, false⟩])
  else if a.stalledAlerts && st.lastBlockAlarm && o.lastBlockTimeIsZero then
    ({ st with lastBlockAlarm := false }, [⟨Cond.stalled, true⟩])
  else (st, [])

/-- The consecutive-missed-blocks block of the tick loop (its clear branch
does not re-check `Alerts.ConsecutiveAlerts`, exactly as the source). -/
def consecutiveTick (a : AlertsConfig) (st : WatchState) (o : TickObs) :
    WatchState × List AlertCall :=
  if !st.missedAlarm && a.consecutiveAlerts &&
      decide (a.consecutiveMissed ≤ o.statConsecutiveMiss) then
    ({ st with missedAlarm := true, activeAlerts := st.activeAlerts + 1 },
     [⟨Cond.consecutive, false⟩])
  else if st.missedAlarm &&
      decide (o.statConsecutiveMiss < a.consecutiveMissed) then
    ({ st with missedAlarm := false, activeAlerts := st.activeAlerts - 1 },
     [⟨Cond.consecutive, true⟩])
  else (st, [])

/-- The window-percentage block of the tick loop.  NOTE: the clear branch
passes `false` for the `resolved` argument, exactly as the source does. -/
def percentTick (a : AlertsConfig) (st : WatchState) (o : TickObs) :
    WatchState × List AlertCall :=
  if a.percentageAlerts && !st.pctAlarm &&
      pctAbove o.missed o.window a.window then
    ({ st with pctAlarm := true, activeAlerts := st.activeAlerts + 1 },
     [⟨Cond.percent, false⟩])
  else if a.percentageAlerts && st.pctAlarm &&
      pctBelow o.missed o.window a.window then
    ({ st with pctAlarm := false, activeAlerts := st.activeAlerts - 1 },
     [⟨Cond.percent, false⟩])
  else (st, [])

/-- One iteration of the steady-state `for` loop of `ChainConfig.watch`
(one 2-second tick), evaluating the five conditions in source order and
collecting the `td.alert` calls it makes with their `resolved` arguments. -/
def watchTick (a : AlertsConfig) (st : WatchState) (o : TickObs) :
    WatchState × List AlertCall :=
  let r1 := noNodesTick a st o
  let r2 := stalledTick a r1.1 o
  let r3 := consecutiveTick a r2.1 o
  let r4 := percentTick a r3.1 o
  let r5 := nodesTick r4.1 o.nodes
  (r5.1, r1.2 ++ r2.2 ++ r3.2 ++ r4.2 ++ r5.2)

/-- A finite run of the watch loop over a list of tick observations. -/
def watchRun (a : AlertsConfig) (st : WatchState) :
    List TickObs → WatchState × List AlertCall
  | [] => (st, [])
  | o :: rest =>
    let r1 := watchTick a st o
    let r2 := watchRun a r1.1 rest
    (r2.1, r1.2 ++ r2.2)

/-- One glyph-prefixed line per active alarm, in order (the shape of
`getAlarms`' loop output). -/
def alarmLines : List String → String
  | [] => ""
  | k :: rest => ("🚨 " ++ k ++ "\n") ++ alarmLines rest

/-- The number of alarm flags whose transitions the source couples with an
`activeAlerts` update: the consecutive-miss flag, the percentage flag and
the per-node alarms.  (The no-RPC and stalled branches of the source never
touch the counter.) -/
def countedAlarms (st : WatchState) : Int :=
  (if st.missedAlarm then 1 else 0) + (if st.pctAlarm then 1 else 0) +
    (st.nodeAlarms.length : Int)

/-- Configuration for the concrete consecutive-miss scenario: threshold 5
consecutive misses, every other condition disabled. -/
def cfg7 : AlertsConfig := ⟨false, false, true, 5, false, 0⟩

/-- Watch state with all hysteresis flags clear and a given
`activeAlerts` value. -/
def stW (n : Int) : WatchState := ⟨false, false, false, false, [], n⟩

/-- Watch state with only the consecutive-miss alarm latched. -/
def stM (n : Int) : WatchState := ⟨false, false, true, false, [], n⟩

/-- A tick observation carrying only a consecutive-miss counter value. -/
def obsMiss (k : Nat) : TickObs := ⟨false, false, false, k, 0, 0, []⟩

/-! ## Basic lemmas about the dedup map operations -/

theorem whichMap_putMap (st : DedupState) (dest : NotifyDest) (m : List String) :
    whichMap (putMap st dest m) dest = m := by
  cases dest <;> rfl

theorem putMap_whichMap (st : DedupState) (dest : NotifyDest) :
    putMap st dest (whichMap st dest) = st := by
  cases dest <;> rfl

theorem contains_setKey_self (l : List String) (a : String) :
    (setKey l a).contains a = true := by
  unfold setKey
  by_cases h : a ∈ l <;> simp [h]

theorem contains_delKey_self (l : List String) (a : String) :
    (delKey l a).contains a = false := by
  simp [delKey, List.mem_filter]

theorem setKey_of_not_contains (l : List String) (a : String)
    (h : l.contains a = false) : setKey l a = a :: l := by
  have hm : a ∉ l := by simpa using h
  simp [setKey, hm]

theorem delKey_of_not_contains (l : List String) (a : String)
    (h : l.contains a = false) : delKey l a = l := by
  have hm : a ∉ l := by simpa using h
  apply List.filter_eq_self.mpr
  intro x hx
  simp only [bne_iff_ne, ne_eq, decide_eq_true_eq]
  exact fun heq => hm (heq ▸ hx)

/-- A call for a key not currently active on its destination: branch 3 of
`shouldNotify` (mark active, deliver), for triggers and resolutions alike. -/
theorem shouldNotify_not_active (msg : AlertMsg) (dest : NotifyDest)
    (st : DedupState)
    (h : (whichMap st dest).contains msg.message = false) :
    shouldNotify msg dest st =
      (true, putMap st dest (setKey (whichMap st dest) msg.message)) := by
  have hm : msg.message ∉ whichMap st dest := by simpa using h
  simp [shouldNotify, shouldNotifyMap, hm]

/-- A repeated trigger for an active key: branch 1 (suppress, no change). -/
theorem shouldNotify_active_trigger (msg : AlertMsg) (dest : NotifyDest)
    (st : DedupState)
    (h : (whichMap st dest).contains msg.message = true)
    (hr : msg.resolved = false) :
    shouldNotify msg dest st = (false, st) := by
  have hm : msg.message ∈ whichMap st dest := by simpa using h
  simp [shouldNotify, shouldNotifyMap, hm, hr, putMap_whichMap]

/-- A resolution for an active key: branch 2 (clear the mark, deliver). -/
theorem shouldNotify_active_resolve (msg : AlertMsg) (dest : NotifyDest)
    (st : DedupState)
    (h : (whichMap st dest).contains msg.message = true)
    (hr : msg.resolved = true) :
    shouldNotify msg dest st =
      (true, putMap st dest (delKey (whichMap st dest) msg.message)) := by
  have hm : msg.message ∈ whichMap st dest := by simpa using h
  simp [shouldNotify, shouldNotifyMap, hm, hr]

/-! ## Claims about the deduplication engine -/

/-- **C3**: for a key not yet marked active on its destination, two
triggers (resolved = false) with no intervening resolution return `true`
then `false`. -/
theorem shouldNotify_trigger_twice (msg : AlertMsg) (dest : NotifyDest)
    (st : DedupState) (hr : msg.resolved = false)
    (h : (whichMap st dest).contains msg.message = false) :
    (shouldNotify msg dest st).1 = true ∧
    (shouldNotify msg dest (shouldNotify msg dest st).2).1 = false := by
  rw [shouldNotify_not_active msg dest st h]
  refine ⟨rfl, ?_⟩
  have h2 : (whichMap (putMap st dest (setKey (whichMap st dest) msg.message))
      dest).contains msg.message = true := by
    rw [whichMap_putMap]
    exact contains_setKey_self _ _
  rw [shouldNotify_active_trigger msg dest _ h2 hr]

theorem shouldNotify_trigger_twice_witness :
    (shouldNotify ⟨true, true, true, false, "chainA", "m", "k"⟩ NotifyDest.di
        ⟨[], [], []⟩).1 = true ∧
    (shouldNotify ⟨true, true, true, false, "chainA", "m", "k"⟩ NotifyDest.di
        (shouldNotify ⟨true, true, true, false, "chainA", "m", "k"⟩
          NotifyDest.di ⟨[], [], []⟩).2).1 = false :=
  shouldNotify_trigger_twice _ _ _ rfl (by decide)

/-- **C2** (counterexample): trigger then resolve then resolve again on a
fresh key returns `true, true, true`, but the second resolution re-marks
the key, so at the end of the sequence the key IS marked active for the
destination — refuting the claim that it is not. -/
theorem trigger_resolve_resolve_remarks :
    (shouldNotify ⟨true, true, true, false, "chainA", "m", "k"⟩ NotifyDest.di
        ⟨[], [], []⟩).1 = true ∧
    (shouldNotify ⟨true, true, true, true, "chainA", "m", "k"⟩ NotifyDest.di
        (shouldNotify ⟨true, true, true, false, "chainA", "m", "k"⟩
          NotifyDest.di ⟨[], [], []⟩).2).1 = true ∧
    (shouldNotify ⟨true, true, true, true, "chainA", "m", "k"⟩ NotifyDest.di
        (shouldNotify ⟨true, true, true, true, "chainA", "m", "k"⟩ NotifyDest.di
          (shouldNotify ⟨true, true, true, false, "chainA", "m", "k"⟩
            NotifyDest.di ⟨[], [], []⟩).2).2).1 = true ∧
    ((shouldNotify ⟨true, true, true, true, "chainA", "m", "k"⟩ NotifyDest.di
        (shouldNotify ⟨true, true, true, true, "chainA", "m", "k"⟩ NotifyDest.di
          (shouldNotify ⟨true, true, true, false, "chainA", "m", "k"⟩
            NotifyDest.di ⟨[], [], []⟩).2).2).2.sentDAlarms.contains "m") =
      true := by
  decide

/-- **C2** (amended): trigger, resolve, resolve again on a fresh key
returns `true, true, true`; the dedup mark is cleared by the first
resolution, but the second resolution re-marks the key, so the key is
marked active at the end of the sequence. -/
theorem trigger_resolve_resolve (mt mr : AlertMsg) (dest : NotifyDest)
    (st : DedupState) (ht : mt.resolved = false) (hrr : mr.resolved = true)
    (hm : mr.message = mt.message)
    (h : (whichMap st dest).contains mt.message = false) :
    (shouldNotify mt dest st).1 = true ∧
    (shouldNotify mr dest (shouldNotify mt dest st).2).1 = true ∧
    (shouldNotify mr dest (shouldNotify mr dest
        (shouldNotify mt dest st).2).2).1 = true ∧
    (whichMap (shouldNotify mr dest
        (shouldNotify mt dest st).2).2 dest).contains mt.message = false ∧
    (whichMap (shouldNotify mr dest (shouldNotify mr dest
        (shouldNotify mt dest st).2).2).2 dest).contains mt.message = true := by
  rw [shouldNotify_not_active mt dest st h]
  have h1 : (whichMap (putMap st dest (setKey (whichMap st dest) mt.message))
      dest).contains mr.message = true := by
    rw [whichMap_putMap, hm]
    exact contains_setKey_self _ _
  rw [shouldNotify_active_resolve mr dest _ h1 hrr]
  have h2 : (whichMap (putMap (putMap st dest (setKey (whichMap st dest)
      mt.message)) dest (delKey (whichMap (putMap st dest (setKey
      (whichMap st dest) mt.message)) dest) mr.message)) dest).contains
      mr.message = false := by
    rw [whichMap_putMap]
    exact contains_delKey_self _ _
  rw [shouldNotify_not_active mr dest _ h2]
  refine ⟨rfl, rfl, rfl, ?_, ?_⟩
  · rw [whichMap_putMap, ← hm]
    exact contains_delKey_self _ _
  · rw [whichMap_putMap, ← hm]
    exact contains_setKey_self _ _

theorem trigger_resolve_resolve_witness :
    (shouldNotify ⟨true, true, true, false, "chainA", "x", "k"⟩ NotifyDest.tg
        ⟨[], [], []⟩).1 = true ∧
    (shouldNotify ⟨true, true, true, true, "chainA", "x", "k"⟩ NotifyDest.tg
        (shouldNotify ⟨true, true, true, false, "chainA", "x", "k"⟩
          NotifyDest.tg ⟨[], [], []⟩).2).1 = true ∧
    (shouldNotify ⟨true, true, true, true, "chainA", "x", "k"⟩ NotifyDest.tg
        (shouldNotify ⟨true, true, true, true, "chainA", "x", "k"⟩ NotifyDest.tg
          (shouldNotify ⟨true, true, true, false, "chainA", "x", "k"⟩
            NotifyDest.tg ⟨[], [], []⟩).2).2).1 = true ∧
    (whichMap (shouldNotify ⟨true, true, true, true, "chainA", "x", "k"⟩
        NotifyDest.tg (shouldNotify ⟨true, true, true, false, "chainA", "x", "k"⟩
          NotifyDest.tg ⟨[], [], []⟩).2).2 NotifyDest.tg).contains "x" = false ∧
    (whichMap (shouldNotify ⟨true, true, true, true, "chainA", "x", "k"⟩
        NotifyDest.tg (shouldNotify ⟨true, true, true, true, "chainA", "x", "k"⟩
          NotifyDest.tg (shouldNotify ⟨true, true, true, false, "chainA", "x", "k"⟩
            NotifyDest.tg ⟨[], [], []⟩).2).2).2 NotifyDest.tg).contains "x" =
      true :=
  trigger_resolve_resolve _ _ _ _ rfl rfl rfl (by decide)

/-- **C4**: a resolution for a key not marked active returns `true` and, as
a side effect, marks the key active, so the next genuine trigger for the
same (message, destination) is suppressed (returns `false`). -/
theorem resolve_unmarked_marks (mr mt : AlertMsg) (dest : NotifyDest)
    (st : DedupState) (hrr : mr.resolved = true) (ht : mt.resolved = false)
    (hm : mt.message = mr.message)
    (h : (whichMap st dest).contains mr.message = false) :
    (shouldNotify mr dest st).1 = true ∧
    (whichMap (shouldNotify mr dest st).2 dest).contains mr.message = true ∧
    (shouldNotify mt dest (shouldNotify mr dest st).2).1 = false := by
  rw [shouldNotify_not_active mr dest st h]
  have h1 : (whichMap (putMap st dest (setKey (whichMap st dest) mr.message))
      dest).contains mt.message = true := by
    rw [whichMap_putMap, hm]
    exact contains_setKey_self _ _
  refine ⟨rfl, ?_, ?_⟩
  · rw [whichMap_putMap]
    exact contains_setKey_self _ _
  · rw [shouldNotify_active_trigger mt dest _ h1 ht]

theorem resolve_unmarked_marks_witness :
    (shouldNotify ⟨true, true, true, true, "chainA", "y", "k"⟩ NotifyDest.pd
        ⟨[], [], []⟩).1 = true ∧
    (whichMap (shouldNotify ⟨true, true, true, true, "chainA", "y", "k"⟩
        NotifyDest.pd ⟨[], [], []⟩).2 NotifyDest.pd).contains "y" = true ∧
    (shouldNotify ⟨true, true, true, false, "chainA", "y", "k"⟩ NotifyDest.pd
        (shouldNotify ⟨true, true, true, true, "chainA", "y", "k"⟩
          NotifyDest.pd ⟨[], [], []⟩).2).1 = false :=
  resolve_unmarked_marks _ _ _ _ rfl rfl rfl (by decide)

/-- **C8**: `shouldNotify` mutates only the selected destination's dedup
map — a call for the paging destination leaves the Telegram and Discord
maps unchanged, and symmetrically for the other two destinations. -/
theorem shouldNotify_frame (msg : AlertMsg) (st : DedupState) :
    (shouldNotify msg NotifyDest.pd st).2.sentTgAlarms = st.sentTgAlarms ∧
    (shouldNotify msg NotifyDest.pd st).2.sentDAlarms = st.sentDAlarms ∧
    (shouldNotify msg NotifyDest.tg st).2.sentPdAlarms = st.sentPdAlarms ∧
    (shouldNotify msg NotifyDest.tg st).2.sentDAlarms = st.sentDAlarms ∧
    (shouldNotify msg NotifyDest.di st).2.sentPdAlarms = st.sentPdAlarms ∧
    (shouldNotify msg NotifyDest.di st).2.sentTgAlarms = st.sentTgAlarms :=
  ⟨rfl, rfl, rfl, rfl, rfl, rfl⟩

/-! ## The dashboard alarm registry -/

/-- Membership of the event's own (chain, message) pair after one `alert`
call: present afterwards exactly when the call was a trigger. -/
theorem mem_alertRegistry_self (acc : Registry) (e : AlertEvent) :
    ((e.chain, e.message) ∈ alertRegistry acc e) ↔ e.resolved = false := by
  unfold alertRegistry
  by_cases hc : (e.chain, e.message) ∈ acc <;> cases hr : e.resolved <;>
    simp [hc, hr, List.mem_filter]

/-- One `alert` call leaves every other (chain, message) pair's registry
membership unchanged. -/
theorem mem_alertRegistry_other (acc : Registry) (e : AlertEvent)
    (p : String × String) (hne : p ≠ (e.chain, e.message)) :
    (p ∈ alertRegistry acc e) ↔ p ∈ acc := by
  unfold alertRegistry
  by_cases hc : (e.chain, e.message) ∈ acc <;> cases hr : e.resolved <;>
    simp [hc, hr, List.mem_filter, hne]

/-- Characterisation of the registry after a run from an arbitrary
starting registry: a pair is present iff its most recent event was a
trigger, or it was present initially and never mentioned. -/
theorem mem_foldl_alertRegistry (l : List AlertEvent) (acc : Registry)
    (c m : String) :
    ((c, m) ∈ l.foldl alertRegistry acc) ↔
      (match lastResolved l c m with
       | some r => r = false
       | none => (c, m) ∈ acc) := by
  induction l generalizing acc with
  | nil => simp [lastResolved]
  | cons e rest ih =>
    rw [List.foldl_cons, ih]
    show _ ↔ (match lastResolved (e :: rest) c m with
       | some r => r = false
       | none => (c, m) ∈ acc)
    rw [lastResolved]
    cases h : lastResolved rest c m with
    | some r => rfl
    | none =>
      by_cases he : (e.chain == c && e.message == m) = true
      · have hc : e.chain = c := by
          have := (Bool.and_eq_true _ _).mp he
          exact eq_of_beq this.1
        have hm : e.message = m := by
          have := (Bool.and_eq_true _ _).mp he
          exact eq_of_beq this.2
        rw [if_pos he]
        subst hc hm
        exact mem_alertRegistry_self acc e
      · rw [if_neg he]
        have hne : (c, m) ≠ (e.chain, e.message) := by
          intro hp
          apply he
          rw [Prod.mk.injEq] at hp
          simp [hp.1, hp.2]
        exact mem_alertRegistry_other acc e (c, m) hne

/-- **C5**: after any finite sequence of `alert` calls, the dashboard
registry contains (chain, message) exactly when the most recent call for
that pair was a trigger (resolved = false); and a resolution for a pair
absent from the registry leaves the registry unchanged. -/
theorem currentAlarms_exactly_unresolved (l : List AlertEvent) (c m : String) :
    ((c, m) ∈ runAlerts l ↔ lastResolved l c m = some false) ∧
    ∀ reg : Registry, (c, m) ∉ reg → alertRegistry reg ⟨c, m, true⟩ = reg := by
  constructor
  · rw [runAlerts, mem_foldl_alertRegistry]
    cases h : lastResolved l c m with
    | none => simp
    | some r => cases r <;> simp
  · intro reg hreg
    unfold alertRegistry
    simp [hreg]

theorem currentAlarms_exactly_unresolved_witness :
    ((("A", "m") ∈ runAlerts [⟨"A", "m", false⟩, ⟨"A", "m", true⟩]) ↔
      lastResolved [⟨"A", "m", false⟩, ⟨"A", "m", true⟩] "A" "m" =
        some false) ∧
    alertRegistry [("B", "x")] ⟨"A", "m", true⟩ = [("B", "x")] :=
  ⟨(currentAlarms_exactly_unresolved [⟨"A", "m", false⟩, ⟨"A", "m", true⟩]
      "A" "m").1,
   (currentAlarms_exactly_unresolved [⟨"A", "m", false⟩, ⟨"A", "m", true⟩]
      "A" "m").2 [("B", "x")] (by decide)⟩

/-! ## The dashboard text rendering -/

theorem foldl_append_alarmLines (l : List String) (acc : String) :
    l.foldl (fun result k => result ++ ("🚨 " ++ k ++ "\n")) acc =
      acc ++ alarmLines l := by
  induction l generalizing acc with
  | nil => rw [List.foldl_nil, alarmLines, String.append_empty]
  | cons k rest ih =>
    rw [List.foldl_cons, ih, alarmLines, String.append_assoc]

/-- **C10**: with the global hide-logs flag set, `getAlarms` returns the
empty string for every chain and registry; with it unset, it returns
exactly one alert-glyph-prefixed line per alarm active for that chain. -/
theorem getAlarms_hideLogs (reg : Registry) (chain : String) :
    getAlarms true reg chain = "" ∧
    getAlarms false reg chain =
      alarmLines ((reg.filter (fun p => p.1 == chain)).map
        (fun p => p.2)) := by
  constructor
  · rfl
  · show ((reg.filter (fun p => p.1 == chain)).map (fun p => p.2)).foldl
      (fun result k => result ++ ("🚨 " ++ k ++ "\n")) "" = _
    rw [foldl_append_alarmLines]
    exact String.empty_append _

/-! ## The per-sink notification wrappers -/

/-- **C9**: each wrapper returns nil without touching the dedup registry
when its enable flag is false; with the flag set it calls `shouldNotify`
and its final dedup state is exactly the post-`shouldNotify` state — in
particular independent of the delivery outcome `e`, so a failed delivery
never rolls back the dedup mark — and it attempts delivery only when
`shouldNotify` returned true, reporting the delivery outcome as its own
result. -/
theorem notify_wrapper_contract (e : Option String) (msg : AlertMsg)
    (st : DedupState) :
    (msg.disc = false → notifyDiscord e msg st = ⟨none, false, st⟩) ∧
    (msg.disc = true →
      (notifyDiscord e msg st).st = (shouldNotify msg NotifyDest.di st).2 ∧
      ((notifyDiscord e msg st).attempted = true →
        (shouldNotify msg NotifyDest.di st).1 = true ∧
        (notifyDiscord e msg st).err = e)) ∧
    (msg.tg = false → notifyTg e msg st = ⟨none, false, st⟩) ∧
    (msg.tg = true →
      (notifyTg e msg st).st = (shouldNotify msg NotifyDest.tg st).2 ∧
      ((notifyTg e msg st).attempted = true →
        (shouldNotify msg NotifyDest.tg st).1 = true ∧
        (notifyTg e msg st).err = e)) ∧
    (msg.pd = false → notifyPagerduty e msg st = ⟨none, false, st⟩) ∧
    (msg.pd = true →
      (notifyPagerduty e msg st).st = (shouldNotify msg NotifyDest.pd st).2 ∧
      ((notifyPagerduty e msg st).attempted = true →
        (shouldNotify msg NotifyDest.pd st).1 = true ∧
        (notifyPagerduty e msg st).err = e)) := by
  refine ⟨?_, ?_, ?_, ?_, ?_, ?_⟩
  · intro h
    simp [notifyDiscord, h]
  · intro h
    cases hs : (shouldNotify msg NotifyDest.di st).1 <;>
      simp [notifyDiscord, h, hs]
  · intro h
    simp [notifyTg, h]
  · intro h
    cases hs : (shouldNotify msg NotifyDest.tg st).1 <;>
      simp [notifyTg, h, hs]
  · intro h
    simp [notifyPagerduty, h]
  · intro h
    cases hs : (shouldNotify msg NotifyDest.pd st).1 <;>
      cases hk : msg.key == exampleKey <;>
      simp [notifyPagerduty, h, hs, hk]

theorem notify_wrapper_contract_witness :
    notifyDiscord (some "fail") ⟨true, false, true, false, "c", "m", "k"⟩
      ⟨[], [], []⟩ = ⟨none, false, ⟨[], [], []⟩⟩ ∧
    (notifyTg (some "fail") ⟨true, true, true, false, "c", "m", "k"⟩
      ⟨[], [], []⟩).st =
      (shouldNotify ⟨true, true, true, false, "c", "m", "k"⟩ NotifyDest.tg
        ⟨[], [], []⟩).2 ∧
    (notifyPagerduty (some "fail") ⟨true, true, true, false, "c", "m", "k"⟩
      ⟨[], [], []⟩).st =
      (shouldNotify ⟨true, true, true, false, "c", "m", "k"⟩ NotifyDest.pd
        ⟨[], [], []⟩).2 :=
  ⟨(notify_wrapper_contract (some "fail")
      ⟨true, false, true, false, "c", "m", "k"⟩ ⟨[], [], []⟩).1 rfl,
   ((notify_wrapper_contract (some "fail")
      ⟨true, true, true, false, "c", "m", "k"⟩ ⟨[], [], []⟩).2.2.2.1 rfl).1,
   ((notify_wrapper_contract (some "fail")
      ⟨true, true, true, false, "c", "m", "k"⟩
      ⟨[], [], []⟩).2.2.2.2.2 rfl).1⟩

/-! ## The watch loop: counter bookkeeping -/

theorem length_delKey (l : List String) (a : String) (hn : l.Nodup)
    (hm : a ∈ l) : (delKey l a).length + 1 = l.length := by
  induction l with
  | nil => cases hm
  | cons x rest ih =>
    rw [List.nodup_cons] at hn
    by_cases hx : x = a
    · subst hx
      have h1 : delKey (x :: rest) x = delKey rest x := by
        simp [delKey, List.filter_cons]
      have h2 : delKey rest x = rest :=
        delKey_of_not_contains rest x (by simpa using hn.1)
      rw [h1, h2, List.length_cons]
    · have hd : delKey (x :: rest) a = x :: delKey rest a := by
        simp [delKey, List.filter_cons, bne_iff_ne, hx]
      have hm2 : a ∈ rest := by
        cases List.mem_cons.mp hm with
        | inl h => exact absurd h.symm hx
        | inr h => exact h
      rw [hd, List.length_cons, List.length_cons]
      have := ih hn.2 hm2
      omega

theorem noNodesTick_frame (a : AlertsConfig) (st : WatchState) (o : TickObs) :
    (noNodesTick a st o).1.nodeAlarms = st.nodeAlarms ∧
    (noNodesTick a st o).1.activeAlerts -
        countedAlarms (noNodesTick a st o).1 =
      st.activeAlerts - countedAlarms st := by
  unfold noNodesTick
  split
  · exact ⟨rfl, rfl⟩
  · split
    · exact ⟨rfl, rfl⟩
    · exact ⟨rfl, rfl⟩

theorem stalledTick_frame (a : AlertsConfig) (st : WatchState) (o : TickObs) :
    (stalledTick a st o).1.nodeAlarms = st.nodeAlarms ∧
    (stalledTick a st o).1.activeAlerts -
        countedAlarms (stalledTick a st o).1 =
      st.activeAlerts - countedAlarms st := by
  unfold stalledTick
  split
  · exact ⟨rfl, rfl⟩
  · split
    · exact ⟨rfl, rfl⟩
    · exact ⟨rfl, rfl⟩

theorem consecutiveTick_frame (a : AlertsConfig) (st : WatchState)
    (o : TickObs) :
    (consecutiveTick a st o).1.nodeAlarms = st.nodeAlarms ∧
    (consecutiveTick a st o).1.activeAlerts -
        countedAlarms (consecutiveTick a st o).1 =
      st.activeAlerts - countedAlarms st := by
  unfold consecutiveTick
  split
  · next hcond =>
    simp only [Bool.and_eq_true] at hcond
    have hmm : st.missedAlarm = false := by simpa using hcond.1.1
    refine ⟨rfl, ?_⟩
    cases hp : st.pctAlarm <;> simp [countedAlarms, hmm, hp] <;> omega
  · split
    · next hcond =>
      simp only [Bool.and_eq_true] at hcond
      have hmm : st.missedAlarm = true := hcond.1
      refine ⟨rfl, ?_⟩
      cases hp : st.pctAlarm <;> simp [countedAlarms, hmm, hp] <;> omega
    · exact ⟨rfl, rfl⟩

theorem percentTick_frame (a : AlertsConfig) (st : WatchState) (o : TickObs) :
    (percentTick a st o).1.nodeAlarms = st.nodeAlarms ∧
    (percentTick a st o).1.activeAlerts -
        countedAlarms (percentTick a st o).1 =
      st.activeAlerts - countedAlarms st := by
  unfold percentTick
  split
  · next hcond =>
    simp only [Bool.and_eq_true] at hcond
    have hp : st.pctAlarm = false := by simpa using hcond.1.2
    refine ⟨rfl, ?_⟩
    cases hmm : st.missedAlarm <;> simp [countedAlarms, hmm, hp] <;> omega
  · split
    · next hcond =>
      simp only [Bool.and_eq_true] at hcond
      have hp : st.pctAlarm = true := hcond.1.2
      refine ⟨rfl, ?_⟩
      cases hmm : st.missedAlarm <;> simp [countedAlarms, hmm, hp] <;> omega
    · exact ⟨rfl, rfl⟩

theorem nodeTick_frame (st : WatchState) (n : NodeObs)
    (hn : st.nodeAlarms.Nodup) :
    (nodeTick st n).1.nodeAlarms.Nodup ∧
    (nodeTick st n).1.missedAlarm = st.missedAlarm ∧
    (nodeTick st n).1.pctAlarm = st.pctAlarm ∧
    (nodeTick st n).1.activeAlerts - countedAlarms (nodeTick st n).1 =
      st.activeAlerts - countedAlarms st := by
  unfold nodeTick
  split
  · next hcond =>
    simp only [Bool.and_eq_true] at hcond
    have hc : st.nodeAlarms.contains n.url = false := by
      simpa using hcond.1.1.2
    have hset : setKey st.nodeAlarms n.url = n.url :: st.nodeAlarms :=
      setKey_of_not_contains _ _ hc
    refine ⟨?_, rfl, rfl, ?_⟩
    · simpa [hset] using List.nodup_cons.mpr ⟨by simpa using hc, hn⟩
    · cases hmm : st.missedAlarm <;> cases hp : st.pctAlarm <;>
        simp [countedAlarms, hset, hmm, hp] <;> omega
  · split
    · next hcond =>
      simp only [Bool.and_eq_true] at hcond
      have hc : n.url ∈ st.nodeAlarms := by simpa using hcond.1
      have hlen := length_delKey st.nodeAlarms n.url hn hc
      refine ⟨?_, rfl, rfl, ?_⟩
      · simpa [delKey] using hn.filter (fun x => x != n.url)
      · cases hmm : st.missedAlarm <;> cases hp : st.pctAlarm <;>
          simp [countedAlarms, hmm, hp] <;> omega
    · exact ⟨hn, rfl, rfl, rfl⟩

theorem nodesTick_frame (ns : List NodeObs) (st : WatchState)
    (hn : st.nodeAlarms.Nodup) :
    (nodesTick st ns).1.nodeAlarms.Nodup ∧
    (nodesTick st ns).1.activeAlerts - countedAlarms (nodesTick st ns).1 =
      st.activeAlerts - countedAlarms st := by
  induction ns generalizing st with
  | nil => exact ⟨hn, rfl⟩
  | cons n rest ih =>
    obtain ⟨ha, _, _, hb⟩ := nodeTick_frame st n hn
    obtain ⟨hc, hd⟩ := ih (nodeTick st n).1 ha
    exact ⟨hc, hd.trans hb⟩

theorem watchTick_frame (a : AlertsConfig) (st : WatchState) (o : TickObs)
    (hn : st.nodeAlarms.Nodup) :
    (watchTick a st o).1.nodeAlarms.Nodup ∧
    (watchTick a st o).1.activeAlerts - countedAlarms (watchTick a st o).1 =
      st.activeAlerts - countedAlarms st := by
  obtain ⟨h1a, h1b⟩ := noNodesTick_frame a st o
  obtain ⟨h2a, h2b⟩ := stalledTick_frame a (noNodesTick a st o).1 o
  obtain ⟨h3a, h3b⟩ :=
    consecutiveTick_frame a (stalledTick a (noNodesTick a st o).1 o).1 o
  obtain ⟨h4a, h4b⟩ := percentTick_frame a
    (consecutiveTick a (stalledTick a (noNodesTick a st o).1 o).1 o).1 o
  have halarm : (percentTick a (consecutiveTick a (stalledTick a
      (noNodesTick a st o).1 o).1 o).1 o).1.nodeAlarms = st.nodeAlarms :=
    h4a.trans (h3a.trans (h2a.trans h1a))
  obtain ⟨h5a, h5b⟩ := nodesTick_frame o.nodes
    (percentTick a (consecutiveTick a (stalledTick a
      (noNodesTick a st o).1 o).1 o).1 o).1 (halarm ▸ hn)
  exact ⟨h5a, h5b.trans (h4b.trans (h3b.trans (h2b.trans h1b)))⟩

theorem watchRun_frame (a : AlertsConfig) (l : List TickObs)
    (st : WatchState) (hn : st.nodeAlarms.Nodup) :
    (watchRun a st l).1.nodeAlarms.Nodup ∧
    (watchRun a st l).1.activeAlerts - countedAlarms (watchRun a st l).1 =
      st.activeAlerts - countedAlarms st := by
  induction l generalizing st with
  | nil => exact ⟨hn, rfl⟩
  | cons o rest ih =>
    obtain ⟨h1, h2⟩ := watchTick_frame a st o hn
    obtain ⟨h3, h4⟩ := ih (watchTick a st o).1 h1
    exact ⟨h3, h4.trans h2⟩

/-- **C6** (counterexample): a stalled-chain trigger edge — the tick emits
exactly the stalled trigger call — leaves `activeAlerts` unchanged, so not
every condition's trigger edge increments the counter. -/
theorem stalled_trigger_no_increment :
    (watchTick ⟨false, true, false, 0, false, 0⟩
        ⟨false, false, false, false, [], 5⟩
        ⟨false, false, true, 0, 0, 0, []⟩).2 = [⟨Cond.stalled, false⟩] ∧
    (watchTick ⟨false, true, false, 0, false, 0⟩
        ⟨false, false, false, false, [], 5⟩
        ⟨false, false, true, 0, 0, 0, []⟩).1.activeAlerts = 5 := by
  decide

/-- **C6** (amended): `activeAlerts` is incremented on the trigger edge
and decremented on the clear edge of the consecutive-missed, percentage
and node-down conditions only — the no-reachable-RPC and stalled-chain
branches never touch it — so `activeAlerts` minus the number of latched
counted alarms is invariant under any run, and in particular a run in
which every triggered condition has cleared returns `activeAlerts` to its
initial value. -/
theorem activeAlerts_balance (a : AlertsConfig) (st : WatchState)
    (l : List TickObs) (hn : st.nodeAlarms.Nodup) :
    (watchRun a st l).1.activeAlerts - countedAlarms (watchRun a st l).1 =
      st.activeAlerts - countedAlarms st ∧
    ((watchRun a st l).1.missedAlarm = st.missedAlarm →
      (watchRun a st l).1.pctAlarm = st.pctAlarm →
      (watchRun a st l).1.nodeAlarms.length = st.nodeAlarms.length →
      (watchRun a st l).1.activeAlerts = st.activeAlerts) := by
  obtain ⟨_, hb⟩ := watchRun_frame a l st hn
  refine ⟨hb, fun h1 h2 h3 => ?_⟩
  have hcnt : countedAlarms (watchRun a st l).1 = countedAlarms st := by
    rw [countedAlarms, countedAlarms, h1, h2, h3]
  rw [hcnt] at hb
  exact sub_left_inj.mp hb

theorem activeAlerts_balance_witness :
    (watchRun cfg7 (stW 0) [obsMiss 7, obsMiss 0]).1.activeAlerts =
      (stW 0).activeAlerts :=
  (activeAlerts_balance cfg7 (stW 0) [obsMiss 7, obsMiss 0]
      (by simp [stW])).2 (by decide) (by decide) (by decide)

/-! ## The concrete consecutive-miss scenario -/

theorem watchTick_low (n : Int) (k : Nat) (hk : k < 5) :
    watchTick cfg7 (stW n) (obsMiss k) = (stW n, []) := by
  have h5 : ¬(5 ≤ k) := Nat.not_le.mpr hk
  simp [watchTick, noNodesTick, stalledTick, consecutiveTick, percentTick,
    nodesTick, cfg7, stW, obsMiss, h5]

theorem watchTick_high_trigger (n : Int) (k : Nat) (hk : 5 ≤ k) :
    watchTick cfg7 (stW n) (obsMiss k) =
      (stM (n + 1), [⟨Cond.consecutive, false⟩]) := by
  simp [watchTick, noNodesTick, stalledTick, consecutiveTick, percentTick,
    nodesTick, cfg7, stW, stM, obsMiss, hk]

theorem watchTick_high_hold (n : Int) (k : Nat) (hk : 5 ≤ k) :
    watchTick cfg7 (stM n) (obsMiss k) = (stM n, []) := by
  have h5 : ¬(k < 5) := Nat.not_lt.mpr hk
  simp [watchTick, noNodesTick, stalledTick, consecutiveTick, percentTick,
    nodesTick, cfg7, stM, obsMiss, h5]

theorem watchTick_clear (n : Int) (k : Nat) (hk : k < 5) :
    watchTick cfg7 (stM n) (obsMiss k) =
      (stW (n - 1), [⟨Cond.consecutive, true⟩]) := by
  simp [watchTick, noNodesTick, stalledTick, consecutiveTick, percentTick,
    nodesTick, cfg7, stW, stM, obsMiss, hk]

theorem watchRun_low (n : Int) (l : List Nat) (h : ∀ k ∈ l, k < 5) :
    watchRun cfg7 (stW n) (l.map obsMiss) = (stW n, []) := by
  induction l with
  | nil => rfl
  | cons k rest ih =>
    have hk := h k (List.mem_cons_self k rest)
    have hrest : ∀ x ∈ rest, x < 5 := fun x hx =>
      h x (List.mem_cons_of_mem k hx)
    simp [watchRun, watchTick_low n k hk, ih hrest]

/-- **C7**: with threshold 5 and every other condition disabled, the
counter sequence `[0,2,4,5,6,7,5,4]` yields exactly one trigger call —
appearing at the tick where the counter first reaches 5 and not repeated
while it stays at or above 5 — and exactly one resolve call at the tick
where it drops to 4, with `activeAlerts` back at its pre-trigger value;
and any counter sequence staying strictly below the threshold produces no
alert call at all. -/
theorem consecutive_scenario (A : Int) :
    (watchRun cfg7 (stW A) ([0, 2, 4, 5, 6, 7, 5, 4].map obsMiss)).2 =
      [⟨Cond.consecutive, false⟩, ⟨Cond.consecutive, true⟩] ∧
    (watchRun cfg7 (stW A) ([0, 2, 4].map obsMiss)).2 = [] ∧
    (watchRun cfg7 (stW A) ([0, 2, 4, 5].map obsMiss)).2 =
      [⟨Cond.consecutive, false⟩] ∧
    (watchRun cfg7 (stW A) ([0, 2, 4, 5, 6, 7, 5].map obsMiss)).2 =
      [⟨Cond.consecutive, false⟩] ∧
    WatchState.activeAlerts
      (watchRun cfg7 (stW A) ([0, 2, 4, 5, 6, 7, 5, 4].map obsMiss)).1 = A ∧
    (∀ l : List Nat, (∀ k ∈ l, k < 5) →
      (watchRun cfg7 (stW A) (l.map obsMiss)).2 = []) := by
  have e0 := watchTick_low A 0 (by omega)
  have e2 := watchTick_low A 2 (by omega)
  have e4 := watchTick_low A 4 (by omega)
  have e5 := watchTick_high_trigger A 5 (by omega)
  have h6 := watchTick_high_hold (A + 1) 6 (by omega)
  have h7 := watchTick_high_hold (A + 1) 7 (by omega)
  have h5 := watchTick_high_hold (A + 1) 5 (by omega)
  have hc := watchTick_clear (A + 1) 4 (by omega)
  have master : watchRun cfg7 (stW A) ([0, 2, 4, 5, 6, 7, 5, 4].map obsMiss) =
      (stW (A + 1 - 1),
       [⟨Cond.consecutive, false⟩, ⟨Cond.consecutive, true⟩]) := by
    simp [watchRun, e0, e2, e4, e5, h6, h7, h5, hc]
  have m3 : watchRun cfg7 (stW A) ([0, 2, 4].map obsMiss) = (stW A, []) :=
    watchRun_low A [0, 2, 4] (by decide)
  have m4 : watchRun cfg7 (stW A) ([0, 2, 4, 5].map obsMiss) =
      (stM (A + 1), [⟨Cond.consecutive, false⟩]) := by
    simp [watchRun, e0, e2, e4, e5]
  have m7 : watchRun cfg7 (stW A) ([0, 2, 4, 5, 6, 7, 5].map obsMiss) =
      (stM (A + 1), [⟨Cond.consecutive, false⟩]) := by
    simp [watchRun, e0, e2, e4, e5, h6, h7, h5]
  refine ⟨by rw [master], congrArg Prod.snd m3, congrArg Prod.snd m4,
    congrArg Prod.snd m7, ?_,
    fun l h => congrArg Prod.snd (watchRun_low A l h)⟩
  rw [master]
  show A + 1 - 1 = A
  omega

/-- **C7** witness. -/
theorem consecutive_scenario_witness :
    (watchRun cfg7 (stW 3) ([0, 2, 4, 5, 6, 7, 5, 4].map obsMiss)).2 =
      [⟨Cond.consecutive, false⟩, ⟨Cond.consecutive, true⟩] ∧
    (watchRun cfg7 (stW 3) ([1, 4, 0].map obsMiss)).2 = [] :=
  ⟨(consecutive_scenario 3).1,
   (consecutive_scenario 3).2.2.2.2.2 [1, 4, 0] (by decide)⟩

/-! ## The resolved flag on the clear edges -/

/-- **C1** (the code evaluated at the failing input): on a tick where the
percentage ratio has fallen back below its threshold while `pctAlarm` is
latched, and a node's down-since timestamp has been cleared while its
per-node alarm is latched, the loop takes exactly one clear edge per
condition — but both resulting `td.alert` calls carry `resolved = false`
(alert.go passes `false` in both clear branches), not `resolved = true`. -/
theorem clear_edges_pass_resolved_false :
    watchTick ⟨false, false, false, 0, true, 10⟩
        ⟨false, false, false, true, ["u"], 2⟩
        ⟨false, false, false, 0, 0, 100, [⟨"u", true, false, true, false⟩]⟩ =
      (⟨false, false, false, false, [], 0⟩,
       [⟨Cond.percent, false⟩, ⟨Cond.nodeDown "u", false⟩]) := by
  decide

end Tenderduty
